import Mathlib

/-
Verification development for scripts/clean_and_validate.py.

The script validates a pandas DataFrame of supplement-sales transactions.
We give a shallow embedding: a DataFrame is a list of named, dtyped columns
of cells; pandas/numpy operations are modelled by executable Lean functions;
Python exceptions are modelled by an explicit error type and `Except`.
Floating-point columns are modelled over `ℚ` (the tolerance 0.01 used by the
script dwarfs double rounding error at the magnitudes involved, and every
claim-relevant comparison is a plain arithmetic comparison).
-/

namespace CleanValidate

/-- pandas dtypes that occur in the script's expected-dtype map. -/
inductive Dtype
  | datetime64ns
  | object
  | int64
  | float64
deriving DecidableEq

/-- `str(series.dtype)` for each modelled dtype. -/
def dtypeStr : Dtype → String
  | .datetime64ns => "datetime64[ns]"
  | .object => "object"
  | .int64 => "int64"
  | .float64 => "float64"

/-- One cell of a column: missing (NaN/NaT/None), an int64 value, a float64
value (modelled as `ℚ`), a string, or a datetime value (opaque payload). -/
inductive Cell
  | na
  | int (n : Int)
  | num (q : ℚ)
  | str (s : String)
  | date (d : Nat)
deriving DecidableEq

/-- A named pandas column: its dtype together with its cells. -/
structure Col where
  name : String
  dtype : Dtype
  cells : List Cell
deriving DecidableEq

/-- A pandas DataFrame: an ordered list of columns. -/
abbrev Frame := List Col

/-- The Python exceptions the script can raise.  The typo'd source raises
`NameError`/`KeyError`/`AttributeError`/`AssertionError` in addition to the
intended `ValueError`s. -/
inductive PyErr
  | valueError (msg : String)
  | nameError (missingName : String)
  | keyError (key : String)
  | attributeError (msg : String)
  | typeError (msg : String)
  | assertionError
deriving DecidableEq

/-- The Python exception class name of a raised error (`type(e).__name__`). -/
def pyErrKind : PyErr → String
  | .valueError _ => "ValueError"
  | .nameError _ => "NameError"
  | .keyError _ => "KeyError"
  | .attributeError _ => "AttributeError"
  | .typeError _ => "TypeError"
  | .assertionError => "AssertionError"

/-- `str(e)` for a raised error (used when a message interpolates a caught
exception, as in `convert_date`); `str(AssertionError())` is empty. -/
def pyErrStr : PyErr → String
  | .valueError m => m
  | .nameError n => "name '" ++ n ++ "' is not defined"
  | .keyError k => "'" ++ k ++ "'"
  | .attributeError m => m
  | .typeError m => m
  | .assertionError => ""

/-- `df.columns`. -/
def colNames (df : Frame) : List String := df.map (fun c => c.name)

/-- `df[c]` as a lookup: the first column named `c`, if any. -/
def getCol (df : Frame) (c : String) : Option Col :=
  df.find? (fun s => s.name == c)

/-- The cells of column `c` (empty when the column is absent; every use in a
validator is guarded by a presence check first). -/
def cellsOf (df : Frame) (c : String) : List Cell :=
  match getCol df c with
  | some s => s.cells
  | none => []

/-- `df[c] = col`: replace the column named `col.name`. -/
def setCol (df : Frame) (c : Col) : Frame :=
  df.map (fun s => if s.name == c.name then c else s)

/-- `series.isna()` elementwise. -/
def isNa : Cell → Bool
  | .na => true
  | _ => false

/-- A cell on which pandas elementwise arithmetic/comparison succeeds
(NaN, int64 or float64). -/
def isNumCell : Cell → Bool
  | .na => true
  | .int _ => true
  | .num _ => true
  | _ => false

/-- Total numeric view of a cell: NaN is `none`, int/float are `some`. -/
def cellQ : Cell → Option ℚ
  | .int n => some (n : ℚ)
  | .num q => some q
  | _ => none

/-- Numeric view of a cell as pandas sees it when an elementwise numeric
operation hits the cell: strings and datetimes raise `TypeError`. -/
def cellNum : Cell → Except PyErr (Option ℚ)
  | .na => .ok none
  | .int n => .ok (some (n : ℚ))
  | .num q => .ok (some q)
  | .str s => .error (.typeError ("unsupported operand type for str value '" ++ s ++ "'"))
  | .date _ => .error (.typeError "unsupported operand type for datetime value")

/-- Numeric view of a whole series; fails at the first non-numeric cell,
as the corresponding pandas elementwise operation would. -/
def mapNums : List Cell → Except PyErr (List (Option ℚ))
  | [] => .ok []
  | c :: cs =>
    match cellNum c with
    | .error e => .error e
    | .ok v =>
      match mapNums cs with
      | .error e => .error e
      | .ok vs => .ok (v :: vs)

/-- `x % 1 == 0` elementwise (NaN compares false, as in pandas). -/
def optIntegral : Option ℚ → Bool
  | some q => q.den == 1
  | none => false

/-- `x < 0` elementwise (NaN compares false). -/
def optNeg : Option ℚ → Bool
  | some q => decide (q < 0)
  | none => false

/-- `x <= 0` elementwise (NaN compares false). -/
def optNonpos : Option ℚ → Bool
  | some q => decide (q ≤ 0)
  | none => false

/-- `(x < 0) | (x > 1)` elementwise (NaN compares false). -/
def optOutsideUnit : Option ℚ → Bool
  | some q => decide (q < 0 ∨ 1 < q)
  | none => false

/-- `a > b` elementwise (comparisons involving NaN are false). -/
def optGt : Option ℚ → Option ℚ → Bool
  | some a, some b => decide (b < a)
  | _, _ => false

-- Batteries marks `Rat.add`, `Rat.sub` and `Rat.mul` `@[irreducible]`, which
-- blocks kernel evaluation of closed validator runs, so the embedding uses
-- its own normalised-form operations; the lemmas `qAdd_eq`, `qSub_eq` and
-- `qMul_eq` below show they are the standard rational operations.

/-- Addition on `ℚ` in normalised form (equal to `a + b`, see `qAdd_eq`). -/
def qAdd (a b : ℚ) : ℚ := mkRat (a.num * b.den + b.num * a.den) (a.den * b.den)

/-- Subtraction on `ℚ` in normalised form (equal to `a - b`, see `qSub_eq`). -/
def qSub (a b : ℚ) : ℚ := mkRat (a.num * b.den - b.num * a.den) (a.den * b.den)

/-- Multiplication on `ℚ` in normalised form (equal to `a * b`, see `qMul_eq`). -/
def qMul (a b : ℚ) : ℚ := mkRat (a.num * b.num) (a.den * b.den)

theorem qAdd_eq (a b : ℚ) : qAdd a b = a + b := (Rat.add_def' a b).symm

theorem qSub_eq (a b : ℚ) : qSub a b = a - b := (Rat.sub_def' a b).symm

theorem qMul_eq (a b : ℚ) : qMul a b = a * b := by
  rw [qMul, Rat.mul_def, Rat.normalize_eq_mkRat]

/-- Elementwise product of two numeric series (NaN propagates). -/
def optMul : Option ℚ → Option ℚ → Option ℚ
  | some a, some b => some (qMul a b)
  | _, _ => none

/-- Absolute value on `ℚ`, written so that closed terms reduce. -/
def ratAbs (q : ℚ) : ℚ := if q < 0 then -q else q

theorem ratAbs_eq (q : ℚ) : ratAbs q = |q| := by
  unfold ratAbs
  split
  · exact (abs_of_neg (by assumption)).symm
  · exact (abs_of_nonneg (not_lt.mp (by assumption))).symm

/-- `np.isclose(a, b, atol)` on one element: `|a - b| ≤ atol + rtol * |b|`
with numpy's default `rtol = 1e-5`; any comparison with NaN is false. -/
def isClose (atol : ℚ) : Option ℚ → Option ℚ → Bool
  | some a, some b => decide (ratAbs (qSub a b) ≤ qAdd atol (qMul (mkRat 1 100000) (ratAbs b)))
  | _, _ => false

-- Constants of the script (set literals kept in source order).

def REQUIRED_COLUMNS : List String :=
  ["Date", "Product Name", "Category", "Units Sold", "Price",
   "Revenue", "Discount", "Units Returned", "Location", "Platform"]

def ALLOWED_PRODUCT_NAMES : List String :=
  ["Whey Protein", "Vitamin C", "Fish Oil", "Multivitamin", "Pre-Workout",
   "BCAA", "Creatine", "Zinc", "Collagen Peptides", "Magnesium",
   "Ashwagandha", "Melatonin", "Biotin", "Green Tea Extract",
   "Iron Supplement", "Electrolyte Powder"]

def ALLOWED_CATEGORIES : List String :=
  ["Vitamin", "Mineral", "Protein", "Performance", "Omega",
   "Amino Acid", "Herbal", "Sleep Aid", "Fat Burner", "Hydration"]

def ALLOWED_LOCATIONS : List String := ["Canada", "UK", "USA"]

def ALLOWED_PLATFORMS : List String := ["iHerb", "Amazon", "Walmart"]

def TOLERANCE : ℚ := mkRat 1 100

-- validate_schema (source lines 106-112)

/-- `required_columns - set(df.columns)`, kept in the order of the source's
set literal. -/
def missingColumnsOf (df : Frame) (required : List String) : List String :=
  required.filter (fun c => decide (c ∉ colNames df))

/-- Embeds `validate_schema` (lines 106-112): raise `ValueError` naming the
set difference required − present when it is non-empty. -/
def validate_schema (df : Frame) (required : List String) : Except PyErr Unit :=
  let missing := missingColumnsOf df required
  if missing = [] then .ok ()
  else .error (.valueError
    ("Schema validation failed. Missing required columns: " ++ toString missing))

-- convert_date (source lines 116-125)

/-- Digits of a char list read as a natural number; `none` if empty or any
char is not a digit. -/
def digitsToNat : List Char → Option Nat
  | [] => none
  | l =>
    if l.all Char.isDigit then
      some (l.foldl (fun n c => n * 10 + (c.toNat - 48)) 0)
    else none

/-- Split a char list at each dash (structural recursion so that closed
evaluations reduce in the kernel). -/
def splitDash : List Char → List Char → List (List Char)
  | [], acc => [acc.reverse]
  | c :: cs, acc =>
    if c = '-' then acc.reverse :: splitDash cs []
    else splitDash cs (c :: acc)

/-- One admissible textual date form, `YYYY-MM-DD`, encoded as
`y*10000 + m*100 + d`.  This abstracts pandas's permissive date parser;
the claims only ever need that well-formed ISO dates parse successfully. -/
def parseDateStr (s : String) : Option Nat :=
  match splitDash s.data [] with
  | [y, m, d] =>
    match digitsToNat y, digitsToNat m, digitsToNat d with
    | some yn, some mn, some dn =>
      if 1 ≤ mn ∧ mn ≤ 12 ∧ 1 ≤ dn ∧ dn ≤ 31 then
        some (yn * 10000 + mn * 100 + dn)
      else none
    | _, _, _ => none
  | _ => none

/-- A cell as `pd.to_datetime` would interpret it: datetimes pass through,
strings go to the parser, NaN stays missing, ints are epoch offsets. -/
def parseDateCell : Cell → Option Nat
  | .date d => some d
  | .str s => parseDateStr s
  | .int n => some n.toNat
  | _ => none

/-- Embeds `pd.to_datetime(series, errors=...)`.  pandas validates the
`errors` keyword (`array_to_datetime` asserts it is one of `raise`,
`ignore`, `coerce`), so any other value — such as the script's misspelled
`"coerse"` — raises before any element is parsed. -/
def pdToDatetime (cells : List Cell) (errors : String) : Except PyErr (List Cell) :=
  if errors = "raise" then
    match cells.mapM (fun c => (parseDateCell c).map Cell.date) with
    | some out => .ok out
    | none => .error (.valueError "Unknown datetime string format")
  else if errors = "coerce" then
    .ok (cells.map (fun c =>
      match parseDateCell c with
      | some d => .date d
      | none => .na))
  else if errors = "ignore" then .ok cells
  else .error .assertionError

/-- Embeds `convert_date` (lines 116-125).  The body runs
`df["Date"] = pd.to_datetime(df["Date"], errors="coerse")` inside
`try/except Exception`, re-raising any exception as
`ValueError("Date conversion failed with error: " + str(e))`; a missing
`Date` column surfaces as a caught `KeyError`.  After the assignment it
raises if any coerced value is NaT, else returns the updated frame. -/
def convert_date (df : Frame) : Except PyErr Frame :=
  match getCol df "Date" with
  | none =>
    .error (.valueError ("Date conversion failed with error: " ++ pyErrStr (.keyError "Date")))
  | some s =>
    match pdToDatetime s.cells "coerse" with
    | .error e =>
      .error (.valueError ("Date conversion failed with error: " ++ pyErrStr e))
    | .ok cells =>
      let df' := setCol df ⟨"Date", .datetime64ns, cells⟩
      if cells.any isNa then
        .error (.valueError "Data conversion failed: invalid or missing date values found.")
      else .ok df'

-- validate_dtypes (source lines 130-155)

/-- The `expected_dtypes` dict of `validate_dtypes`, in source order. -/
def expectedDtypes : List (String × String) :=
  [("Date", "datetime64[ns]"), ("Product Name", "object"),
   ("Category", "object"), ("Units Sold", "int64"), ("Price", "float64"),
   ("Revenue", "float64"), ("Discount", "float64"),
   ("Units Returned", "int64"), ("Location", "object"),
   ("Platform", "object")]

/-- The `mismatches` accumulated by `validate_dtypes`: for each expected
column present in the frame whose actual dtype string differs from the
expected one, the triple (column, expected, actual). -/
def dtypeMismatches (df : Frame) : List (String × String × String) :=
  expectedDtypes.filterMap (fun p =>
    match getCol df p.1 with
    | none => none
    | some s =>
      if dtypeStr s.dtype = p.2 then none
      else some (p.1, p.2, dtypeStr s.dtype))

/-- Embeds `validate_dtypes` (lines 130-155): skip absent columns,
accumulate every mismatch, raise one `ValueError` reporting them all. -/
def validate_dtypes (df : Frame) : Except PyErr Unit :=
  if dtypeMismatches df = [] then .ok ()
  else .error (.valueError ("Dtype validation failed: " ++ toString (dtypeMismatches df)))

-- validate_allowed_values (source lines 158-200)

/-- `pd.api.types.is_string_dtype` on the modelled dtypes. -/
def isStringDtype : Dtype → Bool
  | .object => true
  | _ => false

/-- `cell in allowed` for `series.isin(allowed_values)` against a set of
strings: only string cells can match. -/
def cellIn (allowed : List String) : Cell → Bool
  | .str v => allowed.contains v
  | _ => false

/-- Embeds `validate_allowed_values` (lines 158-200) faithfully to its
typos: line 172 reads `od.api.types.is_object_dtype` with `od` undefined,
so every call with `normalize=True` raises `NameError('od')`; line 181
calls `empty_as_na.amy()`, so every call that reaches the null check with
`allow_null=False` raises `AttributeError`; line 194 uses the undefined
name `colum`, so reporting invalid values raises `NameError('colum')`. -/
def validate_allowed_values (df : Frame) (column : String)
    (allowed : List String) (allow_null : Bool) (normalize : Bool) :
    Except PyErr Unit :=
  match getCol df column with
  | none =>
    .error (.valueError ("Allowed values validation failed: column '" ++ column ++ "' not found."))
  | some s =>
    if normalize then .error (.nameError "od")
    else
      let missing : Cell → Bool := fun c => isNa c || (isStringDtype s.dtype && c == .str "")
      if !allow_null then .error (.attributeError "'Series' object has no attribute 'amy'")
      else
        let toCheck := s.cells.filter (fun c => !missing c)
        if toCheck.any (fun c => !cellIn allowed c) then .error (.nameError "colum")
        else .ok ()

-- validate_sold_units (source lines 203-217)

/-- Embeds `validate_sold_units` (lines 203-217): line 205 assigns the
misspelled local `coumn`, so the very first use of `column` on line 207
raises `NameError('column')` on every call. -/
def validate_sold_units (_df : Frame) : Except PyErr Unit :=
  .error (.nameError "column")

-- validate_units_returned (source lines 220-241)

/-- Embeds `validate_units_returned` (lines 220-241): presence of both
columns, then fail-fast checks — no missing values, `x % 1 == 0` for all,
no negatives, and elementwise `Units Returned > Units Sold` for none. -/
def validate_units_returned (df : Frame) : Except PyErr Unit :=
  match getCol df "Units Returned" with
  | none =>
    .error (.valueError "Units Returned validation failed: column 'Units Returned' is missing.")
  | some ur =>
    match getCol df "Units Sold" with
    | none =>
      .error (.valueError "Units Returned validation failed: required column 'Units Sold' is missing.")
    | some us =>
      if ur.cells.any isNa then
        .error (.valueError "Units Returned validation failed: missing values found.")
      else
        match mapNums ur.cells with
        | .error e => .error e
        | .ok urv =>
          if !urv.all optIntegral then
            .error (.valueError "Units Returned validation failed: non-integer values found.")
          else if urv.any optNeg then
            .error (.valueError "Units Returned validation failed: negative values found.")
          else
            match mapNums us.cells with
            | .error e => .error e
            | .ok usv =>
              if (urv.zip usv).any (fun p => optGt p.1 p.2) then
                .error (.valueError "Units Returned validation failed: returned units exceed sold units.")
              else .ok ()

-- validate_price (source lines 244-258)

/-- `pd.api.types.is_numeric_dtype` on the modelled dtypes. -/
def isNumericDtype : Dtype → Bool
  | .int64 => true
  | .float64 => true
  | _ => false

/-- Embeds `validate_price` (lines 244-258). -/
def validate_price (df : Frame) : Except PyErr Unit :=
  match getCol df "Price" with
  | none => .error (.valueError "Price validation failed: column 'Price' is missing.")
  | some s =>
    if s.cells.any isNa then
      .error (.valueError "Price validation failed: missing values found.")
    else if !isNumericDtype s.dtype then
      .error (.valueError "Price validation failed: non-numeric values found.")
    else
      match mapNums s.cells with
      | .error e => .error e
      | .ok v =>
        if v.any optNonpos then
          .error (.valueError "Price validation failed: zero or negative values found.")
        else .ok ()

-- validate_discount (source lines 261-275)

/-- Embeds `validate_discount` (lines 261-275). -/
def validate_discount (df : Frame) : Except PyErr Unit :=
  match getCol df "Discount" with
  | none => .error (.valueError "Discount column validation failed: column 'Discount' is missing.")
  | some s =>
    if s.cells.any isNa then
      .error (.valueError "Discount column validation failed: missing values found.")
    else if !isNumericDtype s.dtype then
      .error (.valueError "Discount validation failed: non-numeric values found.")
    else
      match mapNums s.cells with
      | .error e => .error e
      | .ok v =>
        if v.any optOutsideUnit then
          .error (.valueError "Discount column validation failed: values outside range 0... 1 found.")
        else .ok ()

-- validate_revenue (source lines 278-296)

/-- Embeds `validate_revenue` (lines 278-296) faithfully to its typo:
line 284 computes `df["Units Sold"] * df["price"]` with a lowercase
`"price"`, so once the (correctly spelled) required-columns guard passes,
the formula computation raises `KeyError('price')` unless the frame
happens to carry a column literally named `price`. -/
def validate_revenue (df : Frame) (tolerance : ℚ) : Except PyErr Unit :=
  let missing := missingColumnsOf df ["Revenue", "Units Sold", "Price", "Discount"]
  if missing ≠ [] then
    .error (.valueError ("Revenue validation failed: missing required columns " ++ toString missing))
  else
    match getCol df "price" with
    | none => .error (.keyError "price")
    | some pl =>
      match mapNums (cellsOf df "Units Sold") with
      | .error e => .error e
      | .ok us =>
        match mapNums pl.cells with
        | .error e => .error e
        | .ok plv =>
          match mapNums (cellsOf df "Price") with
          | .error e => .error e
          | .ok pr =>
            match mapNums (cellsOf df "Discount") with
            | .error e => .error e
            | .ok di =>
              match mapNums (cellsOf df "Revenue") with
              | .error e => .error e
              | .ok rv =>
                let f1 := List.zipWith optMul us plv
                let f2 := List.zipWith optMul (List.zipWith optMul us pr)
                  (di.map (Option.map (fun d => qSub 1 d)))
                let f3 := List.zipWith optMul (List.zipWith optMul us pr) di
                let m1 := List.zipWith (isClose tolerance) rv f1
                let m2 := List.zipWith (isClose tolerance) rv f2
                let m3 := List.zipWith (isClose tolerance) rv f3
                let valid := List.zipWith (fun a b => a || b)
                  (List.zipWith (fun a b => a || b) m1 m2) m3
                if valid.all (fun b => b) then .ok ()
                else
                  .error (.valueError ("Revenue validation failed: "
                    ++ toString (valid.filter (fun b => !b)).length
                    ++ " rows do not match any valid formula"))

-- The orchestrator.  Lines 299-305 of the script read
--   drop_temporary_columns(df)
--   validate_missing_required(df, required_columns)
--   write_clean_csv(df, out_path)
--   main()
--   if _name_ == "_main_": main()
-- but none of `drop_temporary_columns`, `validate_missing_required`,
-- `write_clean_csv` or `main` is defined anywhere in the repository, so the
-- orchestrator's body is missing code.  The parts below are modelled from
-- the spec (§2, §4.10, §4.11) and the script's step comments 1-19.

/-- Modelled from the spec: `drop_temporary_columns` (called at line 299 /
step 17, never defined in the source) drops the scratch columns created for
revenue checking before output.  The source's `validate_revenue` keeps its
three candidate-revenue series in local variables and never adds a column to
the frame, so there is no temporary column to drop and the step leaves the
frame unchanged. -/
def drop_temporary_columns (df : Frame) : Frame := df

/-- Modelled from the spec: `validate_missing_required` (called at line 300 /
step 18, never defined in the source).  Spec §4.10: every column in the
required set must have zero missing values; otherwise fail naming the
columns with their missing counts. -/
def validate_missing_required (df : Frame) (required : List String) :
    Except PyErr Unit :=
  let bad := required.filterMap (fun c =>
    match getCol df c with
    | none => none
    | some s =>
      let k := (s.cells.filter isNa).length
      if k = 0 then none else some (c, k))
  if bad = [] then .ok ()
  else .error (.valueError ("Completeness validation failed: missing values found in " ++ toString bad))

/-- Modelled from the spec: `main` (called at line 303, never defined in the
source) sequences the validators in the fixed order of the script's step
comments 1-19 / spec §2, failing fast, and on success hands the cleaned
frame to the writer; file I/O is out of scope, so the pipeline is modelled
on an in-memory frame and returns the frame that would be written. -/
def mainPipeline (df : Frame) : Except PyErr Frame := do
  validate_schema df REQUIRED_COLUMNS
  let df ← convert_date df
  validate_dtypes df
  validate_allowed_values df "Product Name" ALLOWED_PRODUCT_NAMES false true
  validate_allowed_values df "Category" ALLOWED_CATEGORIES false true
  validate_sold_units df
  validate_units_returned df
  validate_price df
  validate_discount df
  validate_revenue df TOLERANCE
  validate_allowed_values df "Location" ALLOWED_LOCATIONS false true
  validate_allowed_values df "Platform" ALLOWED_PLATFORMS false true
  let out := drop_temporary_columns df
  validate_missing_required out REQUIRED_COLUMNS
  pure out

-- Spec-side definition of a valid input table, following the spec's words
-- (§3 invariant set), for comparison with what the pipeline does on it.

/-- Follows the spec's words: the `Date` column is present and every entry
is a parseable calendar date (input arrives as text). -/
def dateColParseable (df : Frame) : Bool :=
  match getCol df "Date" with
  | none => false
  | some s =>
    s.dtype == .object &&
      s.cells.all (fun c =>
        match c with
        | .str v => (parseDateStr v).isSome
        | .date _ => true
        | _ => false)

/-- Follows the spec's words: a categorical column is present, typed as
text, with no missing value and every value inside its allowed set. -/
def objColIn (df : Frame) (name : String) (allowed : List String) : Bool :=
  match getCol df name with
  | none => false
  | some s =>
    s.dtype == .object && s.cells.all (fun c =>
      match c with
      | .str v => allowed.contains v
      | _ => false)

/-- Follows the spec's words: a count column is present, integer-typed,
with no missing value and every value a non-negative integer. -/
def intColNonneg (df : Frame) (name : String) : Bool :=
  match getCol df name with
  | none => false
  | some s =>
    s.dtype == .int64 && s.cells.all (fun c =>
      match c with
      | .int n => decide (0 ≤ n)
      | _ => false)

/-- Follows the spec's words: row-wise `Units Returned ≤ Units Sold`. -/
def returnedLeSold (df : Frame) : Bool :=
  ((cellsOf df "Units Returned").zip (cellsOf df "Units Sold")).all (fun p =>
    match p with
    | (.int a, .int b) => decide (a ≤ b)
    | _ => false)

/-- Follows the spec's words: `Price` is present, float-typed, with no
missing value and every value strictly positive. -/
def priceColPos (df : Frame) : Bool :=
  match getCol df "Price" with
  | none => false
  | some s =>
    s.dtype == .float64 && s.cells.all (fun c =>
      match c with
      | .num q => decide (0 < q)
      | _ => false)

/-- Follows the spec's words: `Discount` is present, float-typed, with no
missing value and every value in the closed interval [0, 1]. -/
def discountColUnit (df : Frame) : Bool :=
  match getCol df "Discount" with
  | none => false
  | some s =>
    s.dtype == .float64 && s.cells.all (fun c =>
      match c with
      | .num q => decide (0 ≤ q ∧ q ≤ 1)
      | _ => false)

/-- Follows the spec's words: `Revenue` is present, float-typed, with no
missing value, and each row's revenue is within the absolute tolerance of
at least one of the three accepted formulas. -/
def revenueColOk (df : Frame) : Bool :=
  (match getCol df "Revenue" with
   | none => false
   | some s => s.dtype == .float64 && s.cells.all (fun c =>
      match c with
      | .num _ => true
      | _ => false)) &&
  (((cellsOf df "Revenue").zip ((cellsOf df "Units Sold").zip
      ((cellsOf df "Price").zip (cellsOf df "Discount")))).all (fun p =>
    match p with
    | (.num r, (.int n, (.num pq, .num d))) =>
      decide (ratAbs (qSub r (qMul (n : ℚ) pq)) ≤ TOLERANCE ∨
              ratAbs (qSub r (qMul (qMul (n : ℚ) pq) (qSub 1 d))) ≤ TOLERANCE ∨
              ratAbs (qSub r (qMul (qMul (n : ℚ) pq) d)) ≤ TOLERANCE)
    | _ => false))

/-- Follows the spec's words (§3): the full invariant set a valid input
table must satisfy — complete column set, expected types, categorical
values inside their allowed sets, no missing required value,
`Units Returned ≤ Units Sold`, positive price, discount in [0, 1], and
revenue within tolerance of one of the three formulas. -/
def specValidFrame (df : Frame) : Bool :=
  REQUIRED_COLUMNS.all (fun c => (colNames df).contains c) &&
  dateColParseable df &&
  objColIn df "Product Name" ALLOWED_PRODUCT_NAMES &&
  objColIn df "Category" ALLOWED_CATEGORIES &&
  objColIn df "Location" ALLOWED_LOCATIONS &&
  objColIn df "Platform" ALLOWED_PLATFORMS &&
  intColNonneg df "Units Sold" &&
  intColNonneg df "Units Returned" &&
  returnedLeSold df &&
  priceColPos df &&
  discountColUnit df &&
  revenueColOk df

-- Concrete tables used to settle the claims.

/-- A one-row table satisfying every invariant of spec §3. -/
def validTable : Frame :=
  [⟨"Date", .object, [.str "2020-01-01"]⟩,
   ⟨"Product Name", .object, [.str "Whey Protein"]⟩,
   ⟨"Category", .object, [.str "Protein"]⟩,
   ⟨"Units Sold", .int64, [.int 10]⟩,
   ⟨"Price", .float64, [.num 2]⟩,
   ⟨"Revenue", .float64, [.num 18]⟩,
   ⟨"Discount", .float64, [.num (mkRat 1 10)]⟩,
   ⟨"Units Returned", .int64, [.int 1]⟩,
   ⟨"Location", .object, [.str "USA"]⟩,
   ⟨"Platform", .object, [.str "Amazon"]⟩]

/-- A one-row table whose `Date` column holds a perfectly parseable date. -/
def dateOkTable : Frame := [⟨"Date", .object, [.str "2020-01-01"]⟩]

/-- A one-row table whose `Platform` value is `" Amazon "`, allowed after
trimming per the spec. -/
def platformTable : Frame := [⟨"Platform", .object, [.str " Amazon "]⟩]

/-- The spec's revenue round-trip example row, parameterised by the
`Revenue` value: Units Sold=10, Price=2.0, Discount=0.1. -/
def revExampleTable (r : ℚ) : Frame :=
  [⟨"Revenue", .float64, [.num r]⟩,
   ⟨"Units Sold", .int64, [.int 10]⟩,
   ⟨"Price", .float64, [.num 2]⟩,
   ⟨"Discount", .float64, [.num (mkRat 1 10)]⟩]

/-- Whitespace trimming as the spec describes the normalization step
(structural recursion over the character list, so closed evaluations
reduce). -/
def trimStr (s : String) : String :=
  ⟨((s.data.dropWhile Char.isWhitespace).reverse.dropWhile Char.isWhitespace).reverse⟩

-- Further concrete tables used by witnesses and counterexamples.

/-- The nine required columns other than `Platform`, plus an extra column. -/
def noPlatformTable : Frame :=
  [⟨"Date", .object, [.str "2020-01-01"]⟩,
   ⟨"Product Name", .object, [.str "Whey Protein"]⟩,
   ⟨"Category", .object, [.str "Protein"]⟩,
   ⟨"Units Sold", .int64, [.int 10]⟩,
   ⟨"Price", .float64, [.num 2]⟩,
   ⟨"Revenue", .float64, [.num 18]⟩,
   ⟨"Discount", .float64, [.num (mkRat 1 10)]⟩,
   ⟨"Units Returned", .int64, [.int 1]⟩,
   ⟨"Location", .object, [.str "USA"]⟩,
   ⟨"Extra", .object, [.str "x"]⟩]

/-- All ten required columns plus two unrecognized extra columns. -/
def extraColsTable : Frame :=
  validTable ++ [⟨"Extra1", .object, [.str "a"]⟩, ⟨"Extra2", .int64, [.int 7]⟩]

/-- A frame with no columns at all. -/
def emptyTable : Frame := []

/-- A one-row `Discount` column holding 2, outside [0, 1]. -/
def badDiscountTable : Frame := [⟨"Discount", .float64, [.num 2]⟩]

/-- A one-row `Price` column whose dtype mismatches the expected map. -/
def badDtypeTable : Frame := [⟨"Price", .object, [.str "x"]⟩]

/-- A one-row `Price` column with a missing value. -/
def priceNaTable : Frame := [⟨"Price", .float64, [.na]⟩]

/-- `Units Returned` 1 against `Units Sold` 2: a well-formed pair. -/
def unitsOkTable : Frame :=
  [⟨"Units Returned", .int64, [.int 1]⟩, ⟨"Units Sold", .int64, [.int 2]⟩]

/-- The classification of a validator outcome by Python exception class. -/
def errKindOf (r : Except PyErr Unit) : Option String :=
  match r with
  | .error e => some (pyErrKind e)
  | .ok _ => none

-- Helper lemmas.

/-- On a series of NaN/int/float cells, the elementwise numeric view
succeeds and is the pointwise total view. -/
theorem mapNums_ok (l : List Cell) (h : ∀ c ∈ l, isNumCell c = true) :
    mapNums l = .ok (l.map cellQ) := by
  induction l with
  | nil => rfl
  | cons c cs ih =>
    have hc : isNumCell c = true := h c (by simp)
    have hcs := ih (fun x hx => h x (by simp [hx]))
    cases c <;> simp_all [mapNums, cellNum, cellQ, isNumCell]

/-- The elementwise numeric view only ever fails with a `TypeError`. -/
theorem mapNums_error (l : List Cell) (e : PyErr) (h : mapNums l = .error e) :
    ∃ s, e = .typeError s := by
  induction l with
  | nil => simp [mapNums] at h
  | cons c cs ih =>
    unfold mapNums at h
    cases c with
    | str s2 => simp only [cellNum, Except.error.injEq] at h; exact ⟨_, h.symm⟩
    | date d => simp only [cellNum, Except.error.injEq] at h; exact ⟨_, h.symm⟩
    | na =>
      simp only [cellNum] at h
      cases hcs : mapNums cs with
      | error e2 => simp only [hcs, Except.error.injEq] at h; subst h; exact ih hcs
      | ok vs => simp only [hcs] at h; cases h
    | int n =>
      simp only [cellNum] at h
      cases hcs : mapNums cs with
      | error e2 => simp only [hcs, Except.error.injEq] at h; subst h; exact ih hcs
      | ok vs => simp only [hcs] at h; cases h
    | num q =>
      simp only [cellNum] at h
      cases hcs : mapNums cs with
      | error e2 => simp only [hcs, Except.error.injEq] at h; subst h; exact ih hcs
      | ok vs => simp only [hcs] at h; cases h

/-- `pd.to_datetime(..., errors="coerse")` always raises: the misspelled
keyword fails pandas's `errors` validation before any parsing happens. -/
theorem pdToDatetime_coerse (cells : List Cell) :
    pdToDatetime cells "coerse" = .error .assertionError := by
  unfold pdToDatetime
  rw [if_neg (by decide), if_neg (by decide), if_neg (by decide)]

/-- `convert_date` fails on every input frame: either the `Date` column is
absent (`KeyError` re-raised as `ValueError`), or the misspelled
`errors="coerse"` keyword raises inside the `try` and is re-raised. -/
theorem convert_date_errors (df : Frame) :
    ∃ m, convert_date df = .error (.valueError m) := by
  cases h : getCol df "Date" with
  | none => exact ⟨_, by unfold convert_date; rw [h]⟩
  | some s =>
    exact ⟨"Date conversion failed with error: " ++ pyErrStr .assertionError,
      by unfold convert_date; simp only [h, pdToDatetime_coerse]⟩

-- Claim theorems.

/-- Claim C1: for every table satisfying all invariants of the data model
the pipeline is claimed to run to completion with output equal to the input
modulo Date normalization.  The code violates this: `validTable` satisfies
every §3 invariant (first conjunct), yet the pipeline aborts in its date
stage, because `convert_date` passes the misspelled keyword
`errors="coerse"` to `pd.to_datetime`, which rejects it before parsing a
single value (second conjunct). -/
theorem c1_pipeline_rejects_spec_valid_table :
    specValidFrame validTable = true ∧
    mainPipeline validTable =
      .error (.valueError "Date conversion failed with error: ") :=
  ⟨rfl, rfl⟩

/-- Claim C2: `validate_revenue` is claimed to accept a row exactly when its
Revenue is within 0.01 of one of the three formulas, with the spec's
example row (Units Sold=10, Price=2.0, Discount=0.1) passing for Revenue
18.0, 20.0 and 0.2 and failing for 5.0.  The code instead raises
`KeyError('price')` on all four examples: line 284 looks up the
nonexistent lowercase column `df["price"]`. -/
theorem c2_validate_revenue_keyerror_on_spec_examples :
    validate_revenue (revExampleTable 18) TOLERANCE = .error (.keyError "price") ∧
    validate_revenue (revExampleTable 20) TOLERANCE = .error (.keyError "price") ∧
    validate_revenue (revExampleTable (mkRat 1 5)) TOLERANCE = .error (.keyError "price") ∧
    validate_revenue (revExampleTable 5) TOLERANCE = .error (.keyError "price") :=
  ⟨rfl, rfl, rfl, rfl⟩

/-- Claim C4: `convert_date` is claimed to parse permissively, raise exactly
when some coerced value is invalid/missing, and otherwise return the table
with parsed dates.  The code instead rejects even a table whose `Date`
column consists of one perfectly parseable ISO date (first conjunct states
parseability, second the failure): the misspelled `errors="coerse"` makes
`pd.to_datetime` raise unconditionally, and the `except` clause re-raises. -/
theorem c4_convert_date_rejects_parseable_dates :
    dateColParseable dateOkTable = true ∧
    convert_date dateOkTable =
      .error (.valueError "Date conversion failed with error: ") :=
  ⟨rfl, rfl⟩

/-- Claim C5: `validate_allowed_values` with nulls disallowed and
normalization on is claimed to trim whitespace so that `" Amazon "` passes
the Platform check.  The code instead raises `NameError('od')` on that very
input: line 172 spells the pandas module `od`, an undefined name, and the
expression is evaluated whenever `normalize=True`.  The first two conjuncts
record that `" Amazon "` trims to `"Amazon"`, which is in the allowed set,
so the claim says this call must succeed; the third shows it raises. -/
theorem c5_allowed_values_nameerror_on_trimmed_platform :
    trimStr " Amazon " = "Amazon" ∧
    ALLOWED_PLATFORMS.contains "Amazon" = true ∧
    validate_allowed_values platformTable "Platform" ALLOWED_PLATFORMS false true =
      .error (.nameError "od") :=
  ⟨rfl, rfl, rfl⟩

/-- Claim C8: the input table is claimed never to be mutated, with scratch
columns discarded so the output has exactly the input's column set.  In the
code, date coercion writes `df["Date"] = ...` into the caller's frame with
no working copy, and the discard/write steps call the undefined names
`drop_temporary_columns` and `write_clean_csv`; what is actually observable
is that every run aborts before any column is written and no output frame
is ever produced: on every input, `convert_date` raises (so the in-place
assignment never lands) and the whole pipeline returns an error. -/
theorem c8_no_run_completes (df : Frame) :
    (∃ m, convert_date df = .error (.valueError m)) ∧
    (∃ e, mainPipeline df = .error e) := by
  refine ⟨convert_date_errors df, ?_⟩
  by_cases hm : missingColumnsOf df REQUIRED_COLUMNS = []
  · obtain ⟨m, hc⟩ := convert_date_errors df
    exact ⟨.valueError m, by
      simp [mainPipeline, validate_schema, hm, hc, Except.instMonad, Except.bind,
        bind, Functor.map, Except.map]⟩
  · exact ⟨.valueError
      ("Schema validation failed. Missing required columns: " ++
        toString (missingColumnsOf df REQUIRED_COLUMNS)), by
      simp [mainPipeline, validate_schema, hm, Except.instMonad, Except.bind,
        bind, Functor.map, Except.map]⟩

/-- Claim C10: `validate_schema` returns normally on every table whose
column set contains all required columns, however many unrecognized extra
columns it carries: only the difference required − present is inspected. -/
theorem c10_schema_tolerates_extra_columns (df : Frame)
    (h : ∀ c ∈ REQUIRED_COLUMNS, c ∈ colNames df) :
    validate_schema df REQUIRED_COLUMNS = .ok () := by
  have hnil : missingColumnsOf df REQUIRED_COLUMNS = [] := by
    rw [missingColumnsOf, List.filter_eq_nil_iff]
    intro a ha
    simpa using h a ha
  simp [validate_schema, hnil]

/-- Witness for C10 at a concrete table carrying two extra columns. -/
theorem c10_schema_tolerates_extra_columns_witness :
    (∀ c ∈ REQUIRED_COLUMNS, c ∈ colNames extraColsTable) ∧
    validate_schema extraColsTable REQUIRED_COLUMNS = .ok () :=
  ⟨by decide, c10_schema_tolerates_extra_columns extraColsTable (by decide)⟩

/-- Claim C3: on any table lacking at least one required column, the
pipeline fails with the schema error; the error names exactly the set
difference required − present; and it is the very first stage's error, so
no other validation runs (the schema checker returns no table and, in this
embedding, cannot modify one).  The orchestrator `main` is absent from the
source (lines 299-305 call undefined names), so the pipeline is the
spec-modelled `mainPipeline`; `validate_schema` itself is the source's. -/
theorem c3_schema_failure_first_and_exact (df : Frame)
    (h : missingColumnsOf df REQUIRED_COLUMNS ≠ []) :
    validate_schema df REQUIRED_COLUMNS =
      .error (.valueError ("Schema validation failed. Missing required columns: " ++
        toString (missingColumnsOf df REQUIRED_COLUMNS))) ∧
    mainPipeline df =
      .error (.valueError ("Schema validation failed. Missing required columns: " ++
        toString (missingColumnsOf df REQUIRED_COLUMNS))) ∧
    (∀ c, c ∈ missingColumnsOf df REQUIRED_COLUMNS ↔
      (c ∈ REQUIRED_COLUMNS ∧ c ∉ colNames df)) := by
  refine ⟨?_, ?_, ?_⟩
  · simp [validate_schema, h]
  · simp [mainPipeline, validate_schema, h, Except.instMonad, Except.bind,
      bind, Functor.map, Except.map]
  · intro c
    simp [missingColumnsOf, List.mem_filter]

/-- Witness for C3 at a concrete table lacking exactly `Platform`. -/
theorem c3_schema_failure_first_and_exact_witness :
    missingColumnsOf noPlatformTable REQUIRED_COLUMNS = ["Platform"] ∧
    mainPipeline noPlatformTable =
      .error (.valueError ("Schema validation failed. Missing required columns: " ++
        toString (missingColumnsOf noPlatformTable REQUIRED_COLUMNS))) :=
  ⟨rfl, (c3_schema_failure_first_and_exact noPlatformTable (by decide)).2.1⟩

/-- Claim C7: `validate_dtypes` checks every expected column present in the
table, skips absent ones, accumulates all mismatches, raises one error
listing each mismatching column with its expected and actual dtype, and
returns normally exactly when no mismatch exists. -/
theorem c7_dtypes_ok_iff_and_reports_all (df : Frame) :
    (validate_dtypes df = .ok () ↔
      ∀ c e s, (c, e) ∈ expectedDtypes → getCol df c = some s →
        dtypeStr s.dtype = e) ∧
    (∀ c e a, (c, e, a) ∈ dtypeMismatches df ↔
      ((c, e) ∈ expectedDtypes ∧
        ∃ s, getCol df c = some s ∧ dtypeStr s.dtype = a ∧ a ≠ e)) ∧
    (dtypeMismatches df ≠ [] →
      validate_dtypes df =
        .error (.valueError ("Dtype validation failed: " ++ toString (dtypeMismatches df)))) := by
  refine ⟨?_, ?_, ?_⟩
  · constructor
    · intro hok c e s hce hg
      have hnil : dtypeMismatches df = [] := by
        by_contra hne
        simp [validate_dtypes, hne] at hok
      have h2 := (List.filterMap_eq_nil_iff.mp hnil) (c, e) hce
      simp only [hg] at h2
      by_contra hne
      rw [if_neg hne] at h2
      cases h2
    · intro hall
      have hnil : dtypeMismatches df = [] := by
        rw [dtypeMismatches, List.filterMap_eq_nil_iff]
        intro p hp
        cases hg : getCol df p.1 with
        | none => simp
        | some s => simp [hall p.1 p.2 s (by simpa using hp) hg]
      simp [validate_dtypes, hnil]
  · intro c e a
    rw [dtypeMismatches, List.mem_filterMap]
    constructor
    · rintro ⟨p, hp, hf⟩
      cases hgp : getCol df p.1 with
      | none => simp only [hgp] at hf; cases hf
      | some s =>
        simp only [hgp] at hf
        by_cases hd : dtypeStr s.dtype = p.2
        · rw [if_pos hd] at hf; cases hf
        · rw [if_neg hd] at hf
          have h1 : p.1 = c ∧ p.2 = e ∧ dtypeStr s.dtype = a := by
            simpa using hf
          obtain ⟨e1, e2, e3⟩ := h1
          refine ⟨?_, s, ?_, e3, ?_⟩
          · have : p = (c, e) := by
              cases p; simp_all
            rw [← this]; exact hp
          · rw [← e1]; exact hgp
          · rw [← e3, ← e2]; exact hd
    · rintro ⟨hce, s, hg, ha, hne⟩
      refine ⟨(c, e), hce, ?_⟩
      simp only [hg]
      rw [if_neg (by rw [ha]; exact hne), ha]
  · intro hne
    simp [validate_dtypes, hne]

/-- Witness for C7 at a concrete table with one dtype mismatch
(`Price` stored as `object` where `float64` is expected). -/
theorem c7_dtypes_ok_iff_and_reports_all_witness :
    validate_dtypes badDtypeTable =
      .error (.valueError ("Dtype validation failed: " ++ toString (dtypeMismatches badDtypeTable))) :=
  (c7_dtypes_ok_iff_and_reports_all badDtypeTable).2.2 (by decide)

/-- Claim C6: `validate_units_returned` fails when either column is absent,
when any `Units Returned` value is missing, non-integral or negative, or
when some row has `Units Returned > Units Sold` elementwise; on numeric
columns it succeeds exactly when none of those conditions holds, whatever
the other columns contain (the validator never reads them). -/
theorem c6_units_returned_spec (df : Frame) :
    (getCol df "Units Returned" = none →
      validate_units_returned df =
        .error (.valueError "Units Returned validation failed: column 'Units Returned' is missing.")) ∧
    (∀ ur, getCol df "Units Returned" = some ur → getCol df "Units Sold" = none →
      validate_units_returned df =
        .error (.valueError "Units Returned validation failed: required column 'Units Sold' is missing.")) ∧
    (∀ ur us, getCol df "Units Returned" = some ur → getCol df "Units Sold" = some us →
      (∀ c ∈ ur.cells, isNumCell c = true) → (∀ c ∈ us.cells, isNumCell c = true) →
      (validate_units_returned df = .ok () ↔
        (ur.cells.any isNa = false ∧
         (ur.cells.map cellQ).all optIntegral = true ∧
         (ur.cells.map cellQ).any optNeg = false ∧
         ((ur.cells.map cellQ).zip (us.cells.map cellQ)).any (fun p => optGt p.1 p.2) = false))) := by
  refine ⟨?_, ?_, ?_⟩
  · intro h
    unfold validate_units_returned
    simp only [h]
  · intro ur h1 h2
    unfold validate_units_returned
    simp only [h1, h2]
  · intro ur us hur hus h1 h2
    have mur := mapNums_ok ur.cells h1
    have mus := mapNums_ok us.cells h2
    unfold validate_units_returned
    simp only [hur, hus, mur, mus]
    cases hna : ur.cells.any isNa <;>
      cases hint : (ur.cells.map cellQ).all optIntegral <;>
        cases hneg : (ur.cells.map cellQ).any optNeg <;>
          cases hgt : ((ur.cells.map cellQ).zip (us.cells.map cellQ)).any
              (fun p => optGt p.1 p.2) <;>
            simp [hna, hint, hneg, hgt]

/-- Witness for C6: a concrete well-formed pair passes, and a frame with no
`Units Returned` column fails with the column-missing error. -/
theorem c6_units_returned_spec_witness :
    validate_units_returned unitsOkTable = .ok () ∧
    validate_units_returned emptyTable =
      .error (.valueError "Units Returned validation failed: column 'Units Returned' is missing.") :=
  ⟨((c6_units_returned_spec unitsOkTable).2.2
      ⟨"Units Returned", .int64, [.int 1]⟩ ⟨"Units Sold", .int64, [.int 2]⟩
      rfl rfl (by decide) (by decide)).mpr (by decide),
   (c6_units_returned_spec emptyTable).1 rfl⟩

/-- Counterexample to claim C9: the validators do not fail with distinct
error kinds.  The schema checker and the discount checker both raise plain
`ValueError` — the same Python exception class — and in particular no
`SchemaError` or `RangeError` kind exists anywhere in the script. -/
theorem c9_error_kinds_not_distinct :
    errKindOf (validate_schema emptyTable REQUIRED_COLUMNS) = some "ValueError" ∧
    errKindOf (validate_discount badDiscountTable) = some "ValueError" ∧
    errKindOf (validate_schema emptyTable REQUIRED_COLUMNS) =
      errKindOf (validate_discount badDiscountTable) ∧
    errKindOf (validate_schema emptyTable REQUIRED_COLUMNS) ≠ some "SchemaError" ∧
    errKindOf (validate_discount badDiscountTable) ≠ some "RangeError" :=
  ⟨rfl, rfl, rfl, by decide, by decide⟩

/-- Claim C9 as amended: the validators share the single error kind
`ValueError` and are distinguished by message text, not by error kind.
Every `ValueError` a validator can raise carries a message from that
validator's own fixed family (characterized exactly below), the families'
message heads are pairwise distinct strings, and the mistyped
`validate_sold_units` does not even reach a `ValueError`, failing with
`NameError('column')` on every input. -/
theorem c9_validators_distinguished_by_message :
    (∀ df req m, validate_schema df req = .error (.valueError m) →
      m = "Schema validation failed. Missing required columns: " ++
        toString (missingColumnsOf df req)) ∧
    (∀ df m, convert_date df = .error (.valueError m) →
      m = "Date conversion failed with error: " ++ pyErrStr (.keyError "Date") ∨
      m = "Date conversion failed with error: " ++ pyErrStr .assertionError ∨
      m = "Data conversion failed: invalid or missing date values found.") ∧
    (∀ df m, validate_dtypes df = .error (.valueError m) →
      m = "Dtype validation failed: " ++ toString (dtypeMismatches df)) ∧
    (∀ df col allowed an nz m,
      validate_allowed_values df col allowed an nz = .error (.valueError m) →
      m = "Allowed values validation failed: column '" ++ col ++ "' not found.") ∧
    (∀ df m, validate_price df = .error (.valueError m) →
      m = "Price validation failed: column 'Price' is missing." ∨
      m = "Price validation failed: missing values found." ∨
      m = "Price validation failed: non-numeric values found." ∨
      m = "Price validation failed: zero or negative values found.") ∧
    (∀ df m, validate_discount df = .error (.valueError m) →
      m = "Discount column validation failed: column 'Discount' is missing." ∨
      m = "Discount column validation failed: missing values found." ∨
      m = "Discount validation failed: non-numeric values found." ∨
      m = "Discount column validation failed: values outside range 0... 1 found.") ∧
    (∀ df m, validate_units_returned df = .error (.valueError m) →
      m = "Units Returned validation failed: column 'Units Returned' is missing." ∨
      m = "Units Returned validation failed: required column 'Units Sold' is missing." ∨
      m = "Units Returned validation failed: missing values found." ∨
      m = "Units Returned validation failed: non-integer values found." ∨
      m = "Units Returned validation failed: negative values found." ∨
      m = "Units Returned validation failed: returned units exceed sold units.") ∧
    (∀ df t m, validate_revenue df t = .error (.valueError m) →
      m = "Revenue validation failed: missing required columns " ++
        toString (missingColumnsOf df ["Revenue", "Units Sold", "Price", "Discount"]) ∨
      ∃ k : Nat, m = "Revenue validation failed: " ++ toString k ++
        " rows do not match any valid formula") ∧
    (∀ df, validate_sold_units df = .error (.nameError "column")) ∧
    (["Schema validation failed.", "Date conversion failed", "Data conversion failed",
      "Dtype validation failed", "Allowed values validation failed",
      "Price validation failed", "Discount column validation failed",
      "Discount validation failed", "Units Returned validation failed",
      "Revenue validation failed"].Pairwise (fun a b => a ≠ b)) := by
  refine ⟨?_, ?_, ?_, ?_, ?_, ?_, ?_, ?_, fun _ => rfl, by decide⟩
  · intro df req m h
    simp only [validate_schema] at h
    split at h
    · cases h
    · simp only [Except.error.injEq, PyErr.valueError.injEq] at h
      exact h.symm
  · intro df m h
    unfold convert_date at h
    cases hg : getCol df "Date" with
    | none =>
      simp only [hg, Except.error.injEq, PyErr.valueError.injEq] at h
      exact .inl h.symm
    | some s =>
      simp only [hg, pdToDatetime_coerse, Except.error.injEq, PyErr.valueError.injEq] at h
      exact .inr (.inl h.symm)
  · intro df m h
    simp only [validate_dtypes] at h
    split at h
    · cases h
    · simp only [Except.error.injEq, PyErr.valueError.injEq] at h
      exact h.symm
  · intro df col allowed an nz m h
    unfold validate_allowed_values at h
    cases hg : getCol df col with
    | none =>
      simp only [hg, Except.error.injEq, PyErr.valueError.injEq] at h
      exact h.symm
    | some s =>
      simp only [hg] at h
      cases nz with
      | true => simp at h
      | false =>
        cases an with
        | false => simp at h
        | true =>
          simp only [Bool.not_true, Bool.false_eq_true, if_false] at h
          split at h
          · cases h
          · cases h
  · intro df m h
    unfold validate_price at h
    cases hg : getCol df "Price" with
    | none =>
      simp only [hg, Except.error.injEq, PyErr.valueError.injEq] at h
      exact .inl h.symm
    | some s =>
      simp only [hg] at h
      split at h
      · simp only [Except.error.injEq, PyErr.valueError.injEq] at h
        exact .inr (.inl h.symm)
      · split at h
        · simp only [Except.error.injEq, PyErr.valueError.injEq] at h
          exact .inr (.inr (.inl h.symm))
        · cases hmn : mapNums s.cells with
          | error e =>
            simp only [hmn] at h
            obtain ⟨s2, rfl⟩ := mapNums_error _ _ hmn
            cases h
          | ok v =>
            simp only [hmn] at h
            split at h
            · simp only [Except.error.injEq, PyErr.valueError.injEq] at h
              exact .inr (.inr (.inr h.symm))
            · cases h
  · intro df m h
    unfold validate_discount at h
    cases hg : getCol df "Discount" with
    | none =>
      simp only [hg, Except.error.injEq, PyErr.valueError.injEq] at h
      exact .inl h.symm
    | some s =>
      simp only [hg] at h
      split at h
      · simp only [Except.error.injEq, PyErr.valueError.injEq] at h
        exact .inr (.inl h.symm)
      · split at h
        · simp only [Except.error.injEq, PyErr.valueError.injEq] at h
          exact .inr (.inr (.inl h.symm))
        · cases hmn : mapNums s.cells with
          | error e =>
            simp only [hmn] at h
            obtain ⟨s2, rfl⟩ := mapNums_error _ _ hmn
            cases h
          | ok v =>
            simp only [hmn] at h
            split at h
            · simp only [Except.error.injEq, PyErr.valueError.injEq] at h
              exact .inr (.inr (.inr h.symm))
            · cases h
  · intro df m h
    unfold validate_units_returned at h
    cases hg : getCol df "Units Returned" with
    | none =>
      simp only [hg, Except.error.injEq, PyErr.valueError.injEq] at h
      exact .inl h.symm
    | some ur =>
      simp only [hg] at h
      cases hg2 : getCol df "Units Sold" with
      | none =>
        simp only [hg2, Except.error.injEq, PyErr.valueError.injEq] at h
        exact .inr (.inl h.symm)
      | some us =>
        simp only [hg2] at h
        split at h
        · simp only [Except.error.injEq, PyErr.valueError.injEq] at h
          exact .inr (.inr (.inl h.symm))
        · cases hmn : mapNums ur.cells with
          | error e =>
            simp only [hmn] at h
            obtain ⟨s2, rfl⟩ := mapNums_error _ _ hmn
            cases h
          | ok urv =>
            simp only [hmn] at h
            split at h
            · simp only [Except.error.injEq, PyErr.valueError.injEq] at h
              exact .inr (.inr (.inr (.inl h.symm)))
            · split at h
              · simp only [Except.error.injEq, PyErr.valueError.injEq] at h
                exact .inr (.inr (.inr (.inr (.inl h.symm))))
              · cases hmn2 : mapNums us.cells with
                | error e =>
                  simp only [hmn2] at h
                  obtain ⟨s2, rfl⟩ := mapNums_error _ _ hmn2
                  cases h
                | ok usv =>
                  simp only [hmn2] at h
                  split at h
                  · simp only [Except.error.injEq, PyErr.valueError.injEq] at h
                    exact .inr (.inr (.inr (.inr (.inr h.symm))))
                  · cases h
  · intro df t m h
    simp only [validate_revenue] at h
    split at h
    · simp only [Except.error.injEq, PyErr.valueError.injEq] at h
      exact .inl h.symm
    · cases hp : getCol df "price" with
      | none => simp only [hp] at h; cases h
      | some pl =>
        simp only [hp] at h
        cases h1 : mapNums (cellsOf df "Units Sold") with
        | error e =>
          simp only [h1] at h
          obtain ⟨s2, rfl⟩ := mapNums_error _ _ h1
          cases h
        | ok us =>
          simp only [h1] at h
          cases h2 : mapNums pl.cells with
          | error e =>
            simp only [h2] at h
            obtain ⟨s2, rfl⟩ := mapNums_error _ _ h2
            cases h
          | ok plv =>
            simp only [h2] at h
            cases h3 : mapNums (cellsOf df "Price") with
            | error e =>
              simp only [h3] at h
              obtain ⟨s2, rfl⟩ := mapNums_error _ _ h3
              cases h
            | ok pr =>
              simp only [h3] at h
              cases h4 : mapNums (cellsOf df "Discount") with
              | error e =>
                simp only [h4] at h
                obtain ⟨s2, rfl⟩ := mapNums_error _ _ h4
                cases h
              | ok di =>
                simp only [h4] at h
                cases h5 : mapNums (cellsOf df "Revenue") with
                | error e =>
                  simp only [h5] at h
                  obtain ⟨s2, rfl⟩ := mapNums_error _ _ h5
                  cases h
                | ok rv =>
                  simp only [h5] at h
                  split at h
                  · cases h
                  · simp only [Except.error.injEq, PyErr.valueError.injEq] at h
                    exact .inr ⟨_, h.symm⟩

/-- Witness for the amended C9: `validate_price` on a concrete frame with a
missing value raises `ValueError` with the missing-values message from the
price validator's message family. -/
theorem c9_validators_distinguished_by_message_witness :
    validate_price priceNaTable =
      .error (.valueError "Price validation failed: missing values found.") ∧
    ("Price validation failed: missing values found." =
        "Price validation failed: column 'Price' is missing." ∨
      "Price validation failed: missing values found." =
        "Price validation failed: missing values found." ∨
      "Price validation failed: missing values found." =
        "Price validation failed: non-numeric values found." ∨
      "Price validation failed: missing values found." =
        "Price validation failed: zero or negative values found.") :=
  ⟨rfl, c9_validators_distinguished_by_message.2.2.2.2.1 priceNaTable
    "Price validation failed: missing values found." rfl⟩

end CleanValidate
